import Mathlib

/-!
# Navigation-tree data of the Selftest Firmware documentation

Shallow embedding of `documentation/doxygen/html/navtreedata.js`. The file declares four
variables whose values are literals built from `null`, string literals and array literals.
The literals are transcribed one to one as values of `JsValue`; nothing about their shape is
built into the type, so that the well-formedness properties below are statements about the
data rather than consequences of the encoding.
-/

/-- The JavaScript values that occur in the data file. -/
inductive JsValue where
  | null : JsValue
  | str (s : String) : JsValue
  | arr (items : List JsValue) : JsValue
  deriving Repr

namespace JsValue

mutual
/-- Decision procedure for equality of values. -/
def decEqValue : (a b : JsValue) → Decidable (a = b)
  | null, null => isTrue rfl
  | null, str _ => isFalse (fun h => JsValue.noConfusion h)
  | null, arr _ => isFalse (fun h => JsValue.noConfusion h)
  | str _, null => isFalse (fun h => JsValue.noConfusion h)
  | str s, str t =>
    if h : s = t then isTrue (congrArg str h)
    else isFalse (fun e => h (str.inj e))
  | str _, arr _ => isFalse (fun h => JsValue.noConfusion h)
  | arr _, null => isFalse (fun h => JsValue.noConfusion h)
  | arr _, str _ => isFalse (fun h => JsValue.noConfusion h)
  | arr xs, arr ys =>
    match decEqItems xs ys with
    | isTrue h => isTrue (congrArg arr h)
    | isFalse h => isFalse (fun e => h (arr.inj e))
/-- Decision procedure for equality of sequences of values. -/
def decEqItems : (xs ys : List JsValue) → Decidable (xs = ys)
  | [], [] => isTrue rfl
  | [], _ :: _ => isFalse (fun h => List.noConfusion h)
  | _ :: _, [] => isFalse (fun h => List.noConfusion h)
  | x :: xs, y :: ys =>
    match decEqValue x y, decEqItems xs ys with
    | isTrue h₁, isTrue h₂ => isTrue (by rw [h₁, h₂])
    | isFalse h₁, _ => isFalse (fun e => h₁ (List.cons.inj e).1)
    | _, isFalse h₂ => isFalse (fun e => h₂ (List.cons.inj e).2)
end

instance : DecidableEq JsValue := decEqValue

/-- Indexing `v[i]` of an array value; `none` when `v` is not an array or `i` is out of range. -/
def field (i : Nat) : JsValue → Option JsValue
  | arr items => items.get? i
  | _ => none

/-- The entries of a sequence value (no entries for a value that is not an array). -/
def elements : JsValue → List JsValue
  | arr items => items
  | _ => []

mutual
/-- The nodes of a sequence value: its entries and, recursively, the entries of the sequence
found in the third field of each entry, listed in document order (pre-order). -/
def nodes : JsValue → List JsValue
  | arr es => listNodes es
  | _ => []
/-- The nodes reachable from a list of entries, in document order. -/
def listNodes : List JsValue → List JsValue
  | [] => []
  | e :: rest =>
    e :: (match e with
          | arr (_ :: _ :: c :: _) => nodes c
          | _ => []) ++ listNodes rest
end

/-- The subtree of a node: the node itself followed by all nodes below it. -/
def subtree (n : JsValue) : List JsValue := listNodes [n]

end JsValue

open JsValue

/-- The table of contents, `var NAVTREE`. -/
def NAVTREE : JsValue :=
arr [
  arr [ str "Selftest Firmware", str "index.html", arr [
    arr [ str "Selftest code firmware 700-2010-011", str "md_README.html", arr [
      arr [ str "License", str "md_README.html#autotoc_md1", null ],
      arr [ str "Project setup", str "md_README.html#autotoc_md2", null ],
      arr [ str "Building", str "md_README.html#autotoc_md3", null ],
      arr [ str "Development", str "md_README.html#autotoc_md4", null ],
      arr [ str "Firmware loading Instructions", str "md_README.html#autotoc_md5", arr [
        arr [ str "1. Download the Latest Firmware UF2 File:", str "md_README.html#autotoc_md6", null ],
        arr [ str "2. Prepare your Raspberry Pi Pico:", str "md_README.html#autotoc_md7", null ],
        arr [ str "3. Enter Bootloader Mode:", str "md_README.html#autotoc_md8", null ],
        arr [ str "4. Copy the UF2 File:", str "md_README.html#autotoc_md9", null ],
        arr [ str "5. Eject the Device:", str "md_README.html#autotoc_md10", null ],
        arr [ str "6. Reboot:", str "md_README.html#autotoc_md11", null ]
      ] ],
      arr [ str "Installation", str "md_README.html#autotoc_md12", arr [
        arr [ str "Setup", str "md_README.html#autotoc_md13", null ]
      ] ],
      arr [ str "I2C Command supported", str "md_README.html#autotoc_md14", null ]
    ] ],
    arr [ str "Classes", str "annotated.html", arr [
      arr [ str "Class List", str "annotated.html", str "annotated_dup" ],
      arr [ str "Class Index", str "classes.html", null ],
      arr [ str "Class Members", str "functions.html", arr [
        arr [ str "All", str "functions.html", null ],
        arr [ str "Variables", str "functions_vars.html", null ]
      ] ]
    ] ],
    arr [ str "Files", str "files.html", arr [
      arr [ str "File List", str "files.html", str "files_dup" ],
      arr [ str "File Members", str "globals.html", arr [
        arr [ str "All", str "globals.html", null ],
        arr [ str "Functions", str "globals_func.html", null ],
        arr [ str "Variables", str "globals_vars.html", null ],
        arr [ str "Typedefs", str "globals_type.html", null ],
        arr [ str "Enumerations", str "globals_enum.html", null ],
        arr [ str "Enumerator", str "globals_eval.html", null ],
        arr [ str "Macros", str "globals_defs.html", null ]
      ] ]
    ] ]
  ] ]
]

/-- The page identifiers used for lazy loading, `var NAVTREEINDEX`. -/
def NAVTREEINDEX : JsValue :=
arr [
str "annotated.html"
]

/-- Text of the toggle while synchronisation is on, `var SYNCONMSG`. -/
def SYNCONMSG : JsValue := str "click to disable panel synchronisation"

/-- Text of the toggle while synchronisation is off, `var SYNCOFFMSG`. -/
def SYNCOFFMSG : JsValue := str "click to enable panel synchronisation"

/-- An entry of exactly three fields `[label, link, children]` whose label and link are
strings. -/
def IsEntry (e : JsValue) : Prop :=
  ∃ label link children, e = arr [str label, str link, children]

/-- Executable test for `IsEntry`. -/
def isEntry : JsValue → Bool
  | arr [str _, str _, _] => true
  | _ => false

/-- The string held in field `i` of an entry, when that field is a string. -/
def strField (i : Nat) (e : JsValue) : Option String :=
  match field i e with
  | some (str s) => some s
  | _ => none

/-- Whether the third field of an entry is a string. -/
def hasStringChildren (e : JsValue) : Bool :=
  match field 2 e with
  | some (str _) => true
  | _ => false

/-- Characters allowed in a page name or an anchor: ASCII letters, digits and the underscore. -/
def isNameChar (c : Char) : Bool := c.isAlphanum || c == '_'

/-- A non-empty run of name characters. -/
def IsName (cs : List Char) : Prop := cs ≠ [] ∧ ∀ c ∈ cs, isNameChar c = true

/-- A link target without anchor: a page name followed by `.html`. -/
def IsPageTarget (s : String) : Prop :=
  ∃ page, IsName page ∧ s.toList = page ++ ".html".toList

/-- A link target with anchor: a page name, `.html`, `#` and an anchor name. -/
def IsAnchorTarget (s : String) : Prop :=
  ∃ page anchor, IsName page ∧ IsName anchor ∧ s.toList = page ++ ".html#".toList ++ anchor

/-- A valid link target, with or without anchor. -/
def IsLinkTarget (s : String) : Prop := IsPageTarget s ∨ IsAnchorTarget s

/-- Executable test for `IsName`. -/
def isName (cs : List Char) : Bool := !cs.isEmpty && cs.all isNameChar

/-- Executable test for `IsPageTarget`: the longest leading run of name characters is taken as
the page name. -/
def isPageTarget (s : String) : Bool :=
  isName (s.toList.takeWhile isNameChar) && s.toList.dropWhile isNameChar == ".html".toList

/-- Executable test for `IsAnchorTarget`. -/
def isAnchorTarget (s : String) : Bool :=
  isName (s.toList.takeWhile isNameChar)
    && (s.toList.dropWhile isNameChar).take 6 == ".html#".toList
    && isName ((s.toList.dropWhile isNameChar).drop 6)

/-- Executable test for `IsLinkTarget`. -/
def isLinkTarget (s : String) : Bool := isPageTarget s || isAnchorTarget s

/-- Whether a link contains a `#` anchor. -/
def hasAnchor (s : String) : Bool := s.toList.contains '#'

/-- Whether the link of a node contains a `#` anchor. -/
def nodeHasAnchor (n : JsValue) : Bool :=
  match strField 1 n with
  | some s => hasAnchor s
  | none => false

/-- The links with an anchor among a list of nodes, in the order of the list. -/
def anchoredLinks (ns : List JsValue) : List String :=
  (ns.filterMap (strField 1)).filter hasAnchor

/-- The link of the `i`-th generated heading anchor of the README page. -/
def readmeAnchor (i : Nat) : String := "md_README.html#autotoc_md" ++ toString i

/-! ## Auxiliary facts -/

theorem isEntry_iff (e : JsValue) : isEntry e = true ↔ IsEntry e := by
  constructor
  · intro h
    unfold isEntry at h
    split at h
    · exact ⟨_, _, _, rfl⟩
    · cases h
  · rintro ⟨l, k, c, rfl⟩
    rfl

/-- The nodes below an entry are those of the sequence in its third field, `e[2]`. -/
theorem listNodes_cons (e : JsValue) (rest : List JsValue) :
    listNodes (e :: rest) =
      e :: (match field 2 e with
            | some c => nodes c
            | none => []) ++ listNodes rest := by
  cases e with
  | null => simp [listNodes, field]
  | str s => simp [listNodes, field]
  | arr items =>
    match items with
    | [] => simp [listNodes, field]
    | [_] => simp [listNodes, field]
    | [_, _] => simp [listNodes, field]
    | _ :: _ :: c :: _ => simp [listNodes, field]

theorem nodes_length : (nodes NAVTREE).length = 32 := by decide

theorem isName_iff (cs : List Char) : isName cs = true ↔ IsName cs := by
  cases cs <;> simp [isName, IsName]

theorem takeWhile_name_append (page rest : List Char) (c : Char)
    (hp : ∀ x ∈ page, isNameChar x = true) (hc : isNameChar c = false) :
    (page ++ c :: rest).takeWhile isNameChar = page := by
  induction page with
  | nil => simp [List.takeWhile, hc]
  | cons x xs ih =>
    have hx : isNameChar x = true := hp x (List.mem_cons_self _ _)
    have hxs : ∀ y ∈ xs, isNameChar y = true := fun y hy => hp y (List.mem_cons_of_mem _ hy)
    simp [List.takeWhile, hx, ih hxs]

theorem dropWhile_name_append (page rest : List Char) (c : Char)
    (hp : ∀ x ∈ page, isNameChar x = true) (hc : isNameChar c = false) :
    (page ++ c :: rest).dropWhile isNameChar = c :: rest := by
  induction page with
  | nil => simp [List.dropWhile, hc]
  | cons x xs ih =>
    have hx : isNameChar x = true := hp x (List.mem_cons_self _ _)
    have hxs : ∀ y ∈ xs, isNameChar y = true := fun y hy => hp y (List.mem_cons_of_mem _ hy)
    simp [List.dropWhile, hx, ih hxs]

theorem isPageTarget_iff (s : String) : isPageTarget s = true ↔ IsPageTarget s := by
  constructor
  · intro h
    simp only [isPageTarget, Bool.and_eq_true, beq_iff_eq] at h
    refine ⟨s.toList.takeWhile isNameChar, (isName_iff _).1 h.1, ?_⟩
    rw [← h.2, List.takeWhile_append_dropWhile]
  · rintro ⟨page, hp, hs⟩
    have hdot : isNameChar (Char.ofNat 46) = false := by decide
    have e : s.toList = page ++ Char.ofNat 46 :: "html".toList := by rw [hs]; rfl
    simp only [isPageTarget, Bool.and_eq_true, beq_iff_eq]
    rw [e, takeWhile_name_append _ _ _ hp.2 hdot, dropWhile_name_append _ _ _ hp.2 hdot]
    exact ⟨(isName_iff _).2 hp, rfl⟩

theorem isAnchorTarget_iff (s : String) : isAnchorTarget s = true ↔ IsAnchorTarget s := by
  constructor
  · intro h
    simp only [isAnchorTarget, Bool.and_eq_true, beq_iff_eq] at h
    refine ⟨s.toList.takeWhile isNameChar, (s.toList.dropWhile isNameChar).drop 6,
      (isName_iff _).1 h.1.1, (isName_iff _).1 h.2, ?_⟩
    rw [← h.1.2, List.append_assoc, List.take_append_drop, List.takeWhile_append_dropWhile]
  · rintro ⟨page, anchor, hp, ha, hs⟩
    have hdot : isNameChar (Char.ofNat 46) = false := by decide
    have e : s.toList = page ++ Char.ofNat 46 :: ("html#".toList ++ anchor) := by
      rw [hs, List.append_assoc]; rfl
    simp only [isAnchorTarget, Bool.and_eq_true, beq_iff_eq]
    rw [e, takeWhile_name_append _ _ _ hp.2 hdot, dropWhile_name_append _ _ _ hp.2 hdot]
    exact ⟨⟨(isName_iff _).2 hp, rfl⟩, (isName_iff _).2 ha⟩

theorem isLinkTarget_iff (s : String) : isLinkTarget s = true ↔ IsLinkTarget s := by
  simp [isLinkTarget, IsLinkTarget, isPageTarget_iff, isAnchorTarget_iff]

theorem hasStringChildren_iff (e : JsValue) :
    hasStringChildren e = true ↔ ∃ s, field 2 e = some (str s) := by
  unfold hasStringChildren
  split
  · next s h => simp [h]
  · next h =>
    constructor
    · intro h0; cases h0
    · rintro ⟨s, hs⟩; exact absurd hs (h s)

/-! ## Shape of the nodes -/

/-- C1: every node of `NAVTREE`, at every nesting depth, is an entry of exactly three fields
`[label, link, children]` whose label and link are strings. -/
theorem navtree_nodes_are_entries (n : JsValue) (hn : n ∈ nodes NAVTREE) : IsEntry n := by
  have h : ∀ m ∈ nodes NAVTREE, isEntry m = true := by decide
  exact (isEntry_iff n).1 (h n hn)

/-- The root (the only top-level entry) and the nested node "Setup" are nodes of `NAVTREE` and
are three-field entries (instances of C1). -/
theorem navtree_nodes_are_entries_witness :
    (∃ root, NAVTREE = arr [root] ∧ root ∈ nodes NAVTREE ∧ IsEntry root) ∧
    arr [str "Setup", str "md_README.html#autotoc_md13", null] ∈ nodes NAVTREE ∧
    IsEntry (arr [str "Setup", str "md_README.html#autotoc_md13", null]) :=
  ⟨⟨_, rfl, by decide, navtree_nodes_are_entries _ (by decide)⟩, by decide,
    navtree_nodes_are_entries _ (by decide)⟩

/-- C2 as stated fails: the node "Class List" is a node of `NAVTREE` whose third field is the
string `"annotated_dup"`, so it is not true that every node has `null` or a sequence of entries
as its third field. -/
theorem navtree_children_null_or_entries_fails :
    arr [str "Class List", str "annotated.html", str "annotated_dup"] ∈ nodes NAVTREE ∧
    field 2 (arr [str "Class List", str "annotated.html", str "annotated_dup"])
      = some (str "annotated_dup") ∧
    ¬ ∀ n ∈ nodes NAVTREE,
        field 2 n = some null ∨ ∃ es, field 2 n = some (arr es) ∧ ∀ e ∈ es, IsEntry e := by
  refine ⟨by decide, rfl, fun h => ?_⟩
  rcases h (arr [str "Class List", str "annotated.html", str "annotated_dup"]) (by decide)
    with h0 | ⟨es, h1, _⟩
  · exact absurd h0 (by decide)
  · have h2 : some (str "annotated_dup") = some (arr es) := h1
    cases h2

/-- C2 (amended): for every node of `NAVTREE`, at every nesting depth, the third field is
`null`, or a string, or a sequence of three-field `[label, link, children]` entries. -/
theorem navtree_children_null_string_or_entries (n : JsValue) (hn : n ∈ nodes NAVTREE) :
    field 2 n = some null ∨ (∃ s, field 2 n = some (str s)) ∨
      ∃ es, field 2 n = some (arr es) ∧ ∀ e ∈ es, IsEntry e := by
  have h : ∀ m ∈ nodes NAVTREE,
      (match field 2 m with
       | some null => true
       | some (str _) => true
       | some (arr es) => es.all isEntry
       | none => false) = true := by decide
  have hm := h n hn
  split at hm
  · exact Or.inl (by assumption)
  · exact Or.inr (Or.inl ⟨_, by assumption⟩)
  · next es heq =>
    refine Or.inr (Or.inr ⟨es, heq, fun e he => (isEntry_iff e).1 ?_⟩)
    exact List.all_eq_true.1 hm e he
  · cases hm

/-- The nodes "License" (third field `null`) and "File List" (third field a string) are nodes
of `NAVTREE` and satisfy the amended C2. -/
theorem navtree_children_null_string_or_entries_witness :
    (arr [str "License", str "md_README.html#autotoc_md1", null] ∈ nodes NAVTREE ∧
      (field 2 (arr [str "License", str "md_README.html#autotoc_md1", null]) = some null ∨
       (∃ s, field 2 (arr [str "License", str "md_README.html#autotoc_md1", null])
          = some (str s)) ∨
       ∃ es, field 2 (arr [str "License", str "md_README.html#autotoc_md1", null])
          = some (arr es) ∧ ∀ e ∈ es, IsEntry e)) ∧
    (arr [str "File List", str "files.html", str "files_dup"] ∈ nodes NAVTREE ∧
      (field 2 (arr [str "File List", str "files.html", str "files_dup"]) = some null ∨
       (∃ s, field 2 (arr [str "File List", str "files.html", str "files_dup"])
          = some (str s)) ∨
       ∃ es, field 2 (arr [str "File List", str "files.html", str "files_dup"])
          = some (arr es) ∧ ∀ e ∈ es, IsEntry e)) :=
  ⟨⟨by decide, navtree_children_null_string_or_entries _ (by decide)⟩,
   ⟨by decide, navtree_children_null_string_or_entries _ (by decide)⟩⟩

/-! ## Links -/

/-- C3: every entry of `NAVTREEINDEX` is the link field of some node of `NAVTREE`; in
particular `NAVTREEINDEX` is the one-element sequence `["annotated.html"]`, and
`"annotated.html"` is the link of the node labelled "Classes". -/
theorem navtreeindex_entries_are_links :
    (∀ e ∈ elements NAVTREEINDEX, ∃ n ∈ nodes NAVTREE, field 1 n = some e) ∧
    NAVTREEINDEX = arr [str "annotated.html"] ∧
    ∃ n ∈ nodes NAVTREE,
      field 0 n = some (str "Classes") ∧ field 1 n = some (str "annotated.html") :=
  ⟨by decide, rfl, by decide⟩

/-- The only entry of `NAVTREEINDEX`, `"annotated.html"`, is the link of a node (instance of
C3). -/
theorem navtreeindex_entries_are_links_witness :
    str "annotated.html" ∈ elements NAVTREEINDEX ∧
    ∃ n ∈ nodes NAVTREE, field 1 n = some (str "annotated.html") :=
  ⟨by decide, navtreeindex_entries_are_links.1 _ (by decide)⟩

/-- C4: the link field of every node of `NAVTREE` is a string of the form `page.html` or
`page.html#anchor`, where `page` and `anchor` are non-empty and made only of ASCII letters,
digits and underscores; every entry of `NAVTREEINDEX` is a string of the form `page.html`. -/
theorem navtree_links_are_valid_targets :
    (∀ n ∈ nodes NAVTREE, ∃ s, field 1 n = some (str s) ∧ IsLinkTarget s) ∧
    (∀ e ∈ elements NAVTREEINDEX, ∃ s, e = str s ∧ IsPageTarget s) := by
  have h1 : ∀ n ∈ nodes NAVTREE,
      (match field 1 n with
       | some (str s) => isLinkTarget s
       | _ => false) = true := by decide
  have h2 : ∀ e ∈ elements NAVTREEINDEX,
      (match e with
       | str s => isPageTarget s
       | _ => false) = true := by decide
  constructor
  · intro n hn
    have hm := h1 n hn
    split at hm
    · next s heq => exact ⟨s, heq, (isLinkTarget_iff s).1 hm⟩
    · cases hm
  · intro e he
    have hm := h2 e he
    split at hm
    · next s => exact ⟨s, rfl, (isPageTarget_iff s).1 hm⟩
    · cases hm

/-- The link of the node "Setup" is a valid target with anchor, and the entry of `NAVTREEINDEX`
is a valid page target (instances of C4). -/
theorem navtree_links_are_valid_targets_witness :
    (arr [str "Setup", str "md_README.html#autotoc_md13", null] ∈ nodes NAVTREE ∧
      ∃ s, field 1 (arr [str "Setup", str "md_README.html#autotoc_md13", null]) = some (str s) ∧
        IsLinkTarget s) ∧
    (str "annotated.html" ∈ elements NAVTREEINDEX ∧
      ∃ s, str "annotated.html" = str s ∧ IsPageTarget s) :=
  ⟨⟨by decide, navtree_links_are_valid_targets.1 _ (by decide)⟩,
   ⟨by decide, navtree_links_are_valid_targets.2 _ (by decide)⟩⟩

/-! ## The tree -/

/-- C5: the top-level sequence of `NAVTREE` has exactly one entry, the root, with label
"Selftest Firmware" and link "index.html"; the root has exactly three children, in this order:
the README page (link "md_README.html"), "Classes" (link "annotated.html") and "Files" (link
"files.html"). -/
theorem navtree_single_root :
    ∃ root readme classes files,
      NAVTREE = arr [root] ∧
      field 0 root = some (str "Selftest Firmware") ∧
      field 1 root = some (str "index.html") ∧
      field 2 root = some (arr [readme, classes, files]) ∧
      field 0 readme = some (str "Selftest code firmware 700-2010-011") ∧
      field 1 readme = some (str "md_README.html") ∧
      field 0 classes = some (str "Classes") ∧
      field 1 classes = some (str "annotated.html") ∧
      field 0 files = some (str "Files") ∧
      field 1 files = some (str "files.html") :=
  ⟨_, _, _, _, rfl, rfl, rfl, rfl, rfl, rfl, rfl, rfl, rfl, rfl⟩

/-- C6: `SYNCONMSG` and `SYNCOFFMSG` are non-empty strings that differ from each other; the
first contains the word "disable" and the second the word "enable". -/
theorem sync_messages_differ :
    ∃ onMsg offMsg, SYNCONMSG = str onMsg ∧ SYNCOFFMSG = str offMsg ∧
      onMsg ≠ "" ∧ offMsg ≠ "" ∧ onMsg ≠ offMsg ∧
      "disable".toList <:+: onMsg.toList ∧ "enable".toList <:+: offMsg.toList :=
  ⟨_, _, rfl, rfl, by decide, by decide, by decide, by decide, by decide⟩

/-- C7: the links of `NAVTREE` that contain a `#` anchor, listed in document order, are exactly
`md_README.html#autotoc_md1`, ..., `md_README.html#autotoc_md14`: fourteen links without
duplicate, numbered consecutively from 1, and every node carrying one lies in the subtree of
the README node (the first child of the root, with link "md_README.html"). -/
theorem navtree_anchored_links :
    anchoredLinks (nodes NAVTREE) = (List.range' 1 14).map readmeAnchor ∧
    readmeAnchor 1 = "md_README.html#autotoc_md1" ∧
    readmeAnchor 14 = "md_README.html#autotoc_md14" ∧
    (anchoredLinks (nodes NAVTREE)).length = 14 ∧
    (anchoredLinks (nodes NAVTREE)).Nodup ∧
    ∃ root readme rest,
      NAVTREE = arr [root] ∧ field 2 root = some (arr (readme :: rest)) ∧
      field 1 readme = some (str "md_README.html") ∧
      ∀ n ∈ nodes NAVTREE, nodeHasAnchor n = true → n ∈ subtree readme :=
  ⟨by decide, by decide, by decide, by decide, by decide,
    _, _, _, rfl, rfl, rfl, by decide⟩

/-- The node "Setup", whose link carries an anchor, lies in the subtree of a node with link
"md_README.html" (instance of C7). -/
theorem navtree_anchored_links_witness :
    ∃ readme, field 1 readme = some (str "md_README.html") ∧
      arr [str "Setup", str "md_README.html#autotoc_md13", null] ∈ subtree readme := by
  obtain ⟨_, readme, _, _, _, h3, h4⟩ := navtree_anchored_links.2.2.2.2.2
  exact ⟨readme, h3, h4 _ (by decide) (by decide)⟩

/-- C8: every node of `NAVTREE` whose third field is a string `s` has a link of the form
`page ++ ".html"` with `s = page ++ "_dup"`; the nodes with a string third field are exactly
"Class List" (with `"annotated_dup"`) and "File List" (with `"files_dup"`). -/
theorem navtree_string_children :
    (∀ n ∈ nodes NAVTREE, ∀ s, field 2 n = some (str s) →
      ∃ page, field 1 n = some (str (page ++ ".html")) ∧ s = page ++ "_dup") ∧
    (nodes NAVTREE).filter hasStringChildren =
      [arr [str "Class List", str "annotated.html", str "annotated_dup"],
       arr [str "File List", str "files.html", str "files_dup"]] := by
  have hf : (nodes NAVTREE).filter hasStringChildren =
      [arr [str "Class List", str "annotated.html", str "annotated_dup"],
       arr [str "File List", str "files.html", str "files_dup"]] := by decide
  refine ⟨fun n hn s hs => ?_, hf⟩
  have hmem : n ∈ (nodes NAVTREE).filter hasStringChildren :=
    List.mem_filter.2 ⟨hn, (hasStringChildren_iff n).2 ⟨s, hs⟩⟩
  rw [hf] at hmem
  simp only [List.mem_cons, List.mem_singleton, List.not_mem_nil, or_false] at hmem
  rcases hmem with rfl | rfl
  · have e : some (str "annotated_dup") = some (str s) := hs
    cases e
    exact ⟨"annotated", by decide, by decide⟩
  · have e : some (str "files_dup") = some (str s) := hs
    cases e
    exact ⟨"files", by decide, by decide⟩

/-- The node "File List" has the string `"files_dup"` as third field and the link
`"files" ++ ".html"` (instance of C8). -/
theorem navtree_string_children_witness :
    arr [str "File List", str "files.html", str "files_dup"] ∈ nodes NAVTREE ∧
    field 2 (arr [str "File List", str "files.html", str "files_dup"])
      = some (str "files_dup") ∧
    ∃ page, field 1 (arr [str "File List", str "files.html", str "files_dup"])
      = some (str (page ++ ".html")) ∧ "files_dup" = page ++ "_dup" :=
  ⟨by decide, rfl, navtree_string_children.1 _ (by decide) _ rfl⟩

/-- C9 as stated fails: the node "Class List" is a node of `NAVTREE` with no node below it and
no children sequence, yet its third field is the string `"annotated_dup"` and not `null`; so
it is not true that every node without children carries `null`, whether "without children" is
read as having no node below it or as carrying no children sequence. -/
theorem navtree_childless_carries_null_fails :
    arr [str "Class List", str "annotated.html", str "annotated_dup"] ∈ nodes NAVTREE ∧
    subtree (arr [str "Class List", str "annotated.html", str "annotated_dup"])
      = [arr [str "Class List", str "annotated.html", str "annotated_dup"]] ∧
    field 2 (arr [str "Class List", str "annotated.html", str "annotated_dup"])
      = some (str "annotated_dup") ∧
    (¬ ∀ n ∈ nodes NAVTREE,
        field 2 n ≠ some (arr []) ∧ (subtree n = [n] → field 2 n = some null)) ∧
    (¬ ∀ n ∈ nodes NAVTREE,
        field 2 n ≠ some (arr []) ∧
          ((∀ cs, field 2 n ≠ some (arr cs)) → field 2 n = some null)) := by
  refine ⟨by decide, by decide, rfl, fun h => ?_, fun h => ?_⟩
  · have h0 := (h (arr [str "Class List", str "annotated.html", str "annotated_dup"])
      (by decide)).2 (by decide)
    exact absurd h0 (by decide)
  · have h0 := (h (arr [str "Class List", str "annotated.html", str "annotated_dup"])
      (by decide)).2 (fun cs e => by
        have e2 : some (str "annotated_dup") = some (arr cs) := e
        cases e2)
    exact absurd h0 (by decide)

/-- C9 (amended): no node of `NAVTREE`, at any nesting depth, has an empty sequence as its third
field: every children sequence that is present has at least one entry, and a node without
children (no node below it, or no children sequence) carries `null` or a string. -/
theorem navtree_no_empty_children (n : JsValue) (hn : n ∈ nodes NAVTREE) :
    field 2 n ≠ some (arr []) ∧
    (∀ cs, field 2 n = some (arr cs) → cs ≠ []) ∧
    (field 2 n = some null ∨ (∃ s, field 2 n = some (str s)) ∨
      ∃ c cs, field 2 n = some (arr (c :: cs))) ∧
    (subtree n = [n] → field 2 n = some null ∨ ∃ s, field 2 n = some (str s)) := by
  have h : ∀ m ∈ nodes NAVTREE,
      (match field 2 m with
       | some null => true
       | some (str _) => true
       | some (arr (_ :: _)) => true
       | _ => false) = true := by decide
  have hleaf : ∀ m ∈ nodes NAVTREE,
      subtree m = [m] → field 2 m = some null ∨ hasStringChildren m = true := by decide
  have h4 : subtree n = [n] → field 2 n = some null ∨ ∃ s, field 2 n = some (str s) :=
    fun hs => (hleaf n hn hs).imp id (hasStringChildren_iff n).1
  have hm := h n hn
  split at hm
  · next heq =>
    exact ⟨by simp [heq], fun cs e => (by rw [heq] at e; cases e), Or.inl heq, h4⟩
  · next s heq =>
    exact ⟨by simp [heq], fun cs e => (by rw [heq] at e; cases e),
      Or.inr (Or.inl ⟨s, heq⟩), h4⟩
  · next c cs heq =>
    refine ⟨by simp [heq], fun ds e => ?_, Or.inr (Or.inr ⟨c, cs, heq⟩), h4⟩
    rw [heq] at e
    cases e
    exact List.cons_ne_nil c cs
  · cases hm

/-- The node "Installation" carries a children sequence, and that sequence is not empty; the
node "License" has no node below it and carries `null` (instances of the amended C9). -/
theorem navtree_no_empty_children_witness :
    (arr [str "Installation", str "md_README.html#autotoc_md12",
      arr [arr [str "Setup", str "md_README.html#autotoc_md13", null]]] ∈ nodes NAVTREE ∧
    field 2 (arr [str "Installation", str "md_README.html#autotoc_md12",
      arr [arr [str "Setup", str "md_README.html#autotoc_md13", null]]])
      = some (arr [arr [str "Setup", str "md_README.html#autotoc_md13", null]]) ∧
    [arr [str "Setup", str "md_README.html#autotoc_md13", null]] ≠ []) ∧
    (arr [str "License", str "md_README.html#autotoc_md1", null] ∈ nodes NAVTREE ∧
    subtree (arr [str "License", str "md_README.html#autotoc_md1", null])
      = [arr [str "License", str "md_README.html#autotoc_md1", null]] ∧
    (field 2 (arr [str "License", str "md_README.html#autotoc_md1", null]) = some null ∨
      ∃ s, field 2 (arr [str "License", str "md_README.html#autotoc_md1", null])
        = some (str s))) :=
  ⟨⟨by decide, rfl,
    (navtree_no_empty_children
      (arr [str "Installation", str "md_README.html#autotoc_md12",
        arr [arr [str "Setup", str "md_README.html#autotoc_md13", null]]])
      (by decide)).2.1 _ rfl⟩,
   ⟨by decide, by decide,
    (navtree_no_empty_children
      (arr [str "License", str "md_README.html#autotoc_md1", null])
      (by decide)).2.2.2 (by decide)⟩⟩
